import Mathlib

/-!
# Verification of the Android generic frame buffer allocator

Shallow embedding of `src/android/mm/generic_frame_buffer_allocator.cpp`
(the gralloc-based `PlatformFrameBufferAllocator` of the libcamera Android
HAL, cros-gralloc variant) together with proofs of the behavioural
properties stated in the specification.

The embedding models:
* the vendor `cros_gralloc_handle` structure (plane count, per-plane
  offsets/sizes/strides, file-descriptor array);
* the platform `GraphicBufferAllocator` collaborator as an oracle mapping
  an allocation request to a status/handle/stride triple, plus a status
  oracle for `free`;
* `PlatformFrameBufferAllocator::Private::allocate`, returning the
  optional resource together with the sequence of platform calls issued
  and the severities of the log messages emitted;
* `GenericFrameBufferData`'s destructor, which frees the handle.
-/

namespace GenericFBA

/-- Severity levels of the libcamera log messages used in this file
(`LOG(HAL, Debug|Error|Fatal)`). `Fatal` is the highest severity. -/
inductive LogSeverity where
  | Debug : LogSeverity
  | Error : LogSeverity
  | Fatal : LogSeverity
deriving DecidableEq, Repr

/-- The vendor-specific `cros_gralloc_handle` structure: the opaque
`buffer_handle_t` reinterpreted as the cros-gralloc extension.  `data`
is the underlying `native_handle_t` descriptor array whose first
`numFds` entries are file descriptors (so `fds i = data[i]` for
`i < numFds`); `num_planes`, `offsets`, `sizes` and `strides` are the
vendor's explicit per-plane layout. -/
structure CrosGrallocHandle where
  numFds : Nat
  numInts : Nat
  data : List Int
  width : Nat
  height : Nat
  strides : List Nat
  offsets : List Nat
  sizes : List Nat
  num_planes : Nat
deriving DecidableEq, Repr

/-- One `FrameBuffer::Plane`: a shared file descriptor, a byte offset and
a byte length. -/
structure Plane where
  fd : Int
  offset : Nat
  length : Nat
deriving DecidableEq, Repr

/-- The argument tuple of one `GraphicBufferAllocator::allocate` call:
`allocate(width, height, format, layerCount, usage, &handle, &stride, tag)`. -/
structure AllocRequest where
  width : Nat
  height : Nat
  format : Int
  layerCount : Nat
  usage : Nat
  tag : String
deriving DecidableEq, Repr

/-- What one platform `allocate` call yields back: an `android::status_t`
(`0` is `android::NO_ERROR`), the out-parameter `handle` (`none` models a
null `buffer_handle_t`) and the out-parameter `stride`. -/
structure AllocResponse where
  status : Int
  handle : Option CrosGrallocHandle
  stride : Nat

/-- The platform `GraphicBufferAllocator` collaborator, modelled as an
oracle for `allocate` and a status oracle for `free`. -/
structure GraphicBufferAllocator where
  alloc : AllocRequest → AllocResponse
  freeStatus : CrosGrallocHandle → Int

/-- One platform call issued by this component. -/
inductive Event where
  | allocCall : AllocRequest → Event
  | freeCall : CrosGrallocHandle → Event
deriving DecidableEq

/-- Per-plane size rules of one entry of the `PixelFormatInfo` metadata
table: the declared plane count and the per-plane byte-size rule
(`planeSize(height, planeIndex, stride)`). -/
structure FormatInfo where
  numPlanes : Nat
  planeSize : Nat → Nat → Nat → Nat

/-- The external collaborators of the allocation session: the camera
capabilities' `toPixelFormat` mapping from the HAL integer format code to
the semantic `PixelFormat`, and the `PixelFormatInfo::info` metadata
table (`none` models a format the table has no entry for). -/
structure Env where
  toPixelFormat : Int → Nat
  formatTable : Nat → Option FormatInfo

/-- `GenericFrameBufferData`: the allocated buffer resource.  It owns the
opaque handle and the plane-descriptor sequence; the back-reference to
the allocator is supplied to `destroy` explicitly. -/
structure GenericFrameBufferData where
  handle : CrosGrallocHandle
  planes : List Plane
deriving DecidableEq

/-- The `HALFrameBuffer` produced on success: the resource plus the raw
handle passed alongside it. -/
structure HALFrameBuffer where
  data : GenericFrameBufferData
  handle : CrosGrallocHandle
deriving DecidableEq

/-- Outcome of one `Private::allocate` run: the optional resource, the
platform calls issued, and the severities of the log messages emitted,
in order. -/
structure AllocateOutcome where
  result : Option HALFrameBuffer
  trace : List Event
  logs : List LogSeverity

/-- The plane-construction loop of `Private::allocate` (source lines
149-172): `planes` has `cros_handle->num_planes` entries; each plane's
`fd` is the `SharedFD` built from `handle->data[0]`, its `offset` is
`cros_handle->offsets[i]` and its `length` is `cros_handle->sizes[i]`. -/
def buildPlanes (h : CrosGrallocHandle) : List Plane :=
  (List.range h.num_planes).map fun i =>
    { fd := h.data.getD 0 0
      offset := h.offsets.getD i 0
      length := h.sizes.getD i 0 }

/-- `PlatformFrameBufferAllocator::Private::allocate(halPixelFormat,
size, usage)`.  Faithful to the source: one platform `allocate` call with
layer count `1` and tag `"libcameraHAL"`; non-success status is logged
at `Error` severity and yields no resource; a null handle after success
is logged at `Fatal` severity and yields no resource; otherwise the
handle is reinterpreted as a `cros_gralloc_handle` and the planes are
filled from its explicit per-plane layout.  The debug logs are the one
before the platform call, the summary log, one per handle fd, and two
per plane (the dump loop and the loop at lines 149-172). -/
def Private.allocate (env : Env) (dev : GraphicBufferAllocator)
    (halPixelFormat : Int) (width height : Nat) (usage : Nat) :
    AllocateOutcome :=
  let req : AllocRequest :=
    { width := width, height := height, format := halPixelFormat
      layerCount := 1, usage := usage, tag := "libcameraHAL" }
  let res := dev.alloc req
  if res.status ≠ 0 then
    { result := none
      trace := [Event.allocCall req]
      logs := [LogSeverity.Debug, LogSeverity.Error] }
  else
    match res.handle with
    | none =>
        { result := none
          trace := [Event.allocCall req]
          logs := [LogSeverity.Debug, LogSeverity.Fatal] }
    | some h =>
        let planes := buildPlanes h
        { result := some { data := { handle := h, planes := planes }
                           handle := h }
          trace := [Event.allocCall req]
          logs := [LogSeverity.Debug, LogSeverity.Debug]
                    ++ List.replicate h.numFds LogSeverity.Debug
                    ++ List.replicate h.num_planes LogSeverity.Debug
                    ++ List.replicate h.num_planes LogSeverity.Debug }

/-- `GenericFrameBufferData::~GenericFrameBufferData` (source lines
49-66): one `allocDevice_.free(handle_)` call; a non-success status is
logged at `Error` severity and nothing else happens — the destructor is
total (unconditionally non-throwing by construction). Returns the
platform calls issued and the log severities emitted. -/
def GenericFrameBufferData.destroy (dev : GraphicBufferAllocator)
    (d : GenericFrameBufferData) : List Event × List LogSeverity :=
  let status := dev.freeStatus d.handle
  ([Event.freeCall d.handle],
   if status ≠ 0 then [LogSeverity.Error] else [])

/-- Modelled from the spec: the Inferred-Layout Buffer Descriptor
Builder (spec section 4.2) is compiled out of this repository — only the
commented-out line `info.planeSize(size.height, i, stride)` remains in
the source. Faithful to the spec's words: look up the plane count `P`
from the format table (failing fast when the table has no entry); take
the single file descriptor at index 0 of the handle's descriptor array;
for each plane index `i` in `[0, P)` in increasing order compute
`length[i]` via the table's per-plane size rule, set `offset[i]` to the
running total of all prior planes' lengths, and advance the running
total. `packPlanes` is the running-total loop, `start` the running
total so far. -/
def packPlanes (fd : Int) (lens : List Nat) (start : Nat) : List Plane :=
  match lens with
  | [] => []
  | l :: ls => { fd := fd, offset := start, length := l } :: packPlanes fd ls (start + l)

/-- Modelled from the spec: the Inferred-Layout strategy's plane
construction for a resolved semantic format (see `packPlanes`). -/
def inferredLayoutPlanes (table : Nat → Option FormatInfo)
    (format : Nat) (height stride : Nat) (fd : Int) :
    Option (List Plane) :=
  match table format with
  | none => none
  | some info =>
      some (packPlanes fd
        ((List.range info.numPlanes).map fun i => info.planeSize height i stride) 0)

/-- Modelled from the spec: `allocate` as it behaves with the
Inferred-Layout strategy compiled in (spec sections 4.1 and 4.2) — the
session logic is that of `Private.allocate`, the builder is
`inferredLayoutPlanes` on the stride the platform chose, and a missing
format-table entry fails fast, producing no resource. -/
def Private.allocateInferred (env : Env) (dev : GraphicBufferAllocator)
    (halPixelFormat : Int) (width height : Nat) (usage : Nat) :
    Option (List Plane) :=
  let req : AllocRequest :=
    { width := width, height := height, format := halPixelFormat
      layerCount := 1, usage := usage, tag := "libcameraHAL" }
  let res := dev.alloc req
  if res.status ≠ 0 then
    none
  else
    match res.handle with
    | none => none
    | some h =>
        inferredLayoutPlanes env.formatTable (env.toPixelFormat halPixelFormat)
          height res.stride (h.data.getD 0 0)

end GenericFBA

namespace GenericFBA

/-! ## Helper lemmas -/

/-- The request `Private::allocate` builds at source lines 105-107. -/
def mkReq (halPixelFormat : Int) (width height usage : Nat) : AllocRequest :=
  { width := width, height := height, format := halPixelFormat
    layerCount := 1, usage := usage, tag := "libcameraHAL" }

/-- The all-zero plane, used as the out-of-range default when indexing
plane lists. -/
def planeZero : Plane :=
  { fd := 0, offset := 0, length := 0 }

/-- A concrete well-formed vendor handle: one shared fd `7`, three planes
with explicit (non-consecutive) offsets and sizes. -/
def exHandle : CrosGrallocHandle :=
  { numFds := 1, numInts := 12, data := [7]
    width := 640, height := 480
    strides := [640, 640, 640]
    offsets := [4096, 465000, 700000]
    sizes := [460800, 230400, 115200]
    num_planes := 3 }

/-- A concrete format-table entry declaring 2 planes, with the NV12-like
size rule `height * 960` for plane 0 and `height * 480` for plane 1. -/
def exInfo : FormatInfo :=
  { numPlanes := 2
    planeSize := fun height i _ => if i = 0 then height * 960 else height * 480 }

/-- A concrete environment: every HAL code resolves to the semantic
format `5`, whose table entry is `exInfo`. -/
def exEnv : Env :=
  { toPixelFormat := fun _ => 5
    formatTable := fun n => if n = 5 then some exInfo else none }

/-- A concrete environment whose format table has no entry for any
format. -/
def exEnvNoTable : Env :=
  { toPixelFormat := fun _ => 9
    formatTable := fun _ => none }

/-- A platform allocator that succeeds, returning `exHandle` and
stride 640; its free call succeeds. -/
def exDev : GraphicBufferAllocator :=
  { alloc := fun _ => { status := 0, handle := some exHandle, stride := 640 }
    freeStatus := fun _ => 0 }

/-- A platform allocator returning the same handle as `exDev` but a
different stride; its free call fails. -/
def exDevStride2 : GraphicBufferAllocator :=
  { alloc := fun _ => { status := 0, handle := some exHandle, stride := 1280 }
    freeStatus := fun _ => -1 }

/-- A platform allocator that refuses allocation with status `-12`. -/
def exDevFail : GraphicBufferAllocator :=
  { alloc := fun _ => { status := -12, handle := none, stride := 0 }
    freeStatus := fun _ => 0 }

/-- A platform allocator that reports success but returns a null
handle. -/
def exDevNull : GraphicBufferAllocator :=
  { alloc := fun _ => { status := 0, handle := none, stride := 640 }
    freeStatus := fun _ => 0 }

lemma buildPlanes_length (h : CrosGrallocHandle) :
    (buildPlanes h).length = h.num_planes := by
  simp [buildPlanes]

lemma buildPlanes_getElem (h : CrosGrallocHandle) (i : Nat)
    (hi : i < (buildPlanes h).length) :
    (buildPlanes h)[i] =
      { fd := h.data.getD 0 0
        offset := h.offsets.getD i 0
        length := h.sizes.getD i 0 } := by
  have hi' : i < h.num_planes := by
    simpa [buildPlanes_length] using hi
  simp [buildPlanes]

lemma allocate_result_of_success (env : Env) (dev : GraphicBufferAllocator)
    (f : Int) (w ht u : Nat) (hd : CrosGrallocHandle)
    (hs : (dev.alloc (mkReq f w ht u)).status = 0)
    (hh : (dev.alloc (mkReq f w ht u)).handle = some hd) :
    (Private.allocate env dev f w ht u).result =
      some { data := { handle := hd, planes := buildPlanes hd }, handle := hd } := by
  unfold Private.allocate
  simp only [mkReq] at hs hh
  simp [hs, hh]

lemma allocate_success_shape (env : Env) (dev : GraphicBufferAllocator)
    (f : Int) (w ht u : Nat) (fb : HALFrameBuffer)
    (hres : (Private.allocate env dev f w ht u).result = some fb) :
    (dev.alloc (mkReq f w ht u)).status = 0 ∧
    (dev.alloc (mkReq f w ht u)).handle = some fb.data.handle ∧
    fb.data.planes = buildPlanes fb.data.handle := by
  unfold Private.allocate at hres
  simp only [mkReq] at hres ⊢
  rcases hresp : dev.alloc
      { width := w, height := ht, format := f
        layerCount := 1, usage := u, tag := "libcameraHAL" } with ⟨status, handle, stride⟩
  rw [hresp] at hres
  by_cases hs : status = 0
  · subst hs
    cases handle with
    | none => simp at hres
    | some hd =>
        simp only [ne_eq, not_true_eq_false, if_false, reduceIte] at hres
        rw [Option.some_inj] at hres
        subst hres
        exact ⟨rfl, rfl, rfl⟩
  · simp [hs] at hres

lemma packPlanes_length (fd : Int) (lens : List Nat) (s : Nat) :
    (packPlanes fd lens s).length = lens.length := by
  induction lens generalizing s with
  | nil => rfl
  | cons l ls ih => simp [packPlanes, ih]

lemma packPlanes_getD_fd (fd : Int) (lens : List Nat) (s i : Nat)
    (hi : i < lens.length) :
    ((packPlanes fd lens s).getD i planeZero).fd = fd := by
  induction lens generalizing s i with
  | nil => simp at hi
  | cons l ls ih =>
      cases i with
      | zero => rfl
      | succ j =>
          have hj : j < ls.length := by simpa using hi
          simpa [packPlanes] using ih (s + l) j hj

lemma packPlanes_getD_length (fd : Int) (lens : List Nat) (s i : Nat)
    (hi : i < lens.length) :
    ((packPlanes fd lens s).getD i planeZero).length = lens.getD i 0 := by
  induction lens generalizing s i with
  | nil => simp at hi
  | cons l ls ih =>
      cases i with
      | zero => rfl
      | succ j =>
          have hj : j < ls.length := by simpa using hi
          simpa [packPlanes] using ih (s + l) j hj

lemma packPlanes_getD_zero_offset (fd : Int) (lens : List Nat) (s : Nat)
    (hne : 0 < lens.length) :
    ((packPlanes fd lens s).getD 0 planeZero).offset = s := by
  cases lens with
  | nil => simp at hne
  | cons l ls => rfl

lemma packPlanes_offset_succ (fd : Int) (lens : List Nat) (s i : Nat)
    (hi : i + 1 < lens.length) :
    ((packPlanes fd lens s).getD (i + 1) planeZero).offset =
      ((packPlanes fd lens s).getD i planeZero).offset +
        ((packPlanes fd lens s).getD i planeZero).length := by
  induction lens generalizing s i with
  | nil => simp at hi
  | cons l ls ih =>
      cases i with
      | zero =>
          have hls : 0 < ls.length := by simpa using hi
          show ((packPlanes fd ls (s + l)).getD 0 planeZero).offset = s + l
          exact packPlanes_getD_zero_offset fd ls (s + l) hls
      | succ j =>
          have hj : j + 1 < ls.length := by simpa using hi
          simpa [packPlanes] using ih (s + l) j hj

/-! ## Claim theorems -/

/-- C1: for every successful allocation, the i-th returned plane
descriptor's offset equals the vendor handle's `offsets[i]` and its
length equals the vendor handle's `sizes[i]`, for every plane index
`i` in `[0, num_planes)` — verbatim passthrough. -/
theorem explicit_layout_passthrough (env : Env) (dev : GraphicBufferAllocator)
    (f : Int) (w ht u : Nat) (fb : HALFrameBuffer)
    (hres : (Private.allocate env dev f w ht u).result = some fb)
    (i : Nat) (hi : i < fb.data.handle.num_planes) :
    (fb.data.planes.getD i planeZero).offset = fb.data.handle.offsets.getD i 0 ∧
    (fb.data.planes.getD i planeZero).length = fb.data.handle.sizes.getD i 0 := by
  obtain ⟨-, -, hplanes⟩ := allocate_success_shape env dev f w ht u fb hres
  rw [hplanes]
  have hlen : i < (buildPlanes fb.data.handle).length := by
    rw [buildPlanes_length]; exact hi
  rw [List.getD_eq_getElem _ _ hlen, buildPlanes_getElem _ _ hlen]
  exact ⟨rfl, rfl⟩

/-- Witness for C1 at plane index 1 of a concrete successful run. -/
theorem explicit_layout_passthrough_witness :
    ((buildPlanes exHandle).getD 1 planeZero).offset = exHandle.offsets.getD 1 0 ∧
    ((buildPlanes exHandle).getD 1 planeZero).length = exHandle.sizes.getD 1 0 :=
  explicit_layout_passthrough exEnv exDev 17 640 480 3
    { data := { handle := exHandle, planes := buildPlanes exHandle }, handle := exHandle }
    rfl 1 (by decide)

/-- C2 counterexample: on a run where the format table declares 2 planes
for the resolved format but the vendor handle carries `num_planes = 3`,
the returned sequence has 3 descriptors, not the table's 2 — the length
comes from the vendor handle, not the format table. -/
theorem plane_count_table_cex :
    ((Private.allocate exEnv exDev 17 640 480 3).result.map
        fun fb => fb.data.planes.length) = some 3 ∧
    (exEnv.formatTable (exEnv.toPixelFormat 17)).map FormatInfo.numPlanes = some 2 ∧
    (3 : Nat) ≠ 2 :=
  ⟨rfl, rfl, by decide⟩

/-- C2 (amended): for every successful allocation, the length of the
returned plane-descriptor sequence equals the vendor handle's
`num_planes` field (not the format table's declared plane count). -/
theorem plane_count_from_vendor_handle (env : Env) (dev : GraphicBufferAllocator)
    (f : Int) (w ht u : Nat) (fb : HALFrameBuffer)
    (hres : (Private.allocate env dev f w ht u).result = some fb) :
    fb.data.planes.length = fb.data.handle.num_planes := by
  obtain ⟨-, -, hplanes⟩ := allocate_success_shape env dev f w ht u fb hres
  rw [hplanes, buildPlanes_length]

/-- Witness for the amended C2 on a concrete successful run. -/
theorem plane_count_from_vendor_handle_witness :
    (buildPlanes exHandle).length = exHandle.num_planes :=
  plane_count_from_vendor_handle exEnv exDev 17 640 480 3
    { data := { handle := exHandle, planes := buildPlanes exHandle }, handle := exHandle }
    rfl

/-- C3: whenever the platform allocate call returns a non-success
status, `allocate` returns an absent result — no resource is
constructed and no handle is retained (the platform trace holds only
the allocate call, no free) — and the error is logged at `Error`
severity. -/
theorem alloc_refused_no_resource (env : Env) (dev : GraphicBufferAllocator)
    (f : Int) (w ht u : Nat)
    (hstat : (dev.alloc (mkReq f w ht u)).status ≠ 0) :
    (Private.allocate env dev f w ht u).result = none ∧
    (Private.allocate env dev f w ht u).trace = [Event.allocCall (mkReq f w ht u)] ∧
    (Private.allocate env dev f w ht u).logs = [LogSeverity.Debug, LogSeverity.Error] := by
  unfold Private.allocate
  simp only [mkReq] at hstat ⊢
  simp [hstat]

/-- Witness for C3 on a platform that refuses allocation with status
`-12`. -/
theorem alloc_refused_no_resource_witness :
    (Private.allocate exEnv exDevFail 17 640 480 3).result = none ∧
    (Private.allocate exEnv exDevFail 17 640 480 3).trace =
      [Event.allocCall (mkReq 17 640 480 3)] ∧
    (Private.allocate exEnv exDevFail 17 640 480 3).logs =
      [LogSeverity.Debug, LogSeverity.Error] :=
  alloc_refused_no_resource exEnv exDevFail 17 640 480 3 (by decide)

/-- C4: whenever the platform allocate call returns success but a null
handle, `allocate` returns an absent result via the fatal path (logged
at `Fatal`, the highest severity); the absent result carries no plane
descriptors — the function returns before the plane loop runs. -/
theorem alloc_null_handle_fatal (env : Env) (dev : GraphicBufferAllocator)
    (f : Int) (w ht u : Nat)
    (hstat : (dev.alloc (mkReq f w ht u)).status = 0)
    (hnull : (dev.alloc (mkReq f w ht u)).handle = none) :
    (Private.allocate env dev f w ht u).result = none ∧
    (Private.allocate env dev f w ht u).logs = [LogSeverity.Debug, LogSeverity.Fatal] := by
  unfold Private.allocate
  simp only [mkReq] at hstat hnull ⊢
  simp [hstat, hnull]

/-- Witness for C4 on a platform reporting success with a null handle. -/
theorem alloc_null_handle_fatal_witness :
    (Private.allocate exEnv exDevNull 17 640 480 3).result = none ∧
    (Private.allocate exEnv exDevNull 17 640 480 3).logs =
      [LogSeverity.Debug, LogSeverity.Fatal] :=
  alloc_null_handle_fatal exEnv exDevNull 17 640 480 3 rfl rfl

/-- C5: destroying a `GenericFrameBufferData` invokes the platform free
call exactly once, with the exact handle the resource was constructed
from, for every allocator — in particular regardless of the status free
returns; a non-success status only produces an `Error` log. The
destructor is total, hence unconditionally non-throwing. -/
theorem destroy_frees_exactly_once (dev : GraphicBufferAllocator)
    (d : GenericFrameBufferData) :
    (GenericFrameBufferData.destroy dev d).1 = [Event.freeCall d.handle] ∧
    (GenericFrameBufferData.destroy dev d).2 =
      (if dev.freeStatus d.handle ≠ 0 then [LogSeverity.Error] else []) :=
  ⟨rfl, rfl⟩

/-- C6: for every successful allocation, every plane descriptor in the
returned sequence references the file descriptor at index 0 of the
handle's descriptor array. -/
theorem planes_share_first_fd (env : Env) (dev : GraphicBufferAllocator)
    (f : Int) (w ht u : Nat) (fb : HALFrameBuffer)
    (hres : (Private.allocate env dev f w ht u).result = some fb)
    (i : Nat) (hi : i < fb.data.planes.length) :
    (fb.data.planes.getD i planeZero).fd = fb.data.handle.data.getD 0 0 := by
  obtain ⟨-, -, hplanes⟩ := allocate_success_shape env dev f w ht u fb hres
  rw [hplanes] at hi ⊢
  rw [List.getD_eq_getElem _ _ hi, buildPlanes_getElem _ _ hi]

/-- Witness for C6 at plane index 2 of a concrete successful run. -/
theorem planes_share_first_fd_witness :
    ((buildPlanes exHandle).getD 2 planeZero).fd = exHandle.data.getD 0 0 :=
  planes_share_first_fd exEnv exDev 17 640 480 3
    { data := { handle := exHandle, planes := buildPlanes exHandle }, handle := exHandle }
    rfl 2 (by decide)

/-- C7 (Inferred-Layout strategy, modelled from the spec since that
strategy is compiled out of this repository): for every returned plane
sequence the planes are strictly consecutively packed — `offset[0] = 0`
and `offset[i] = offset[i-1] + length[i-1]` for every `i > 0` — with
each `length[i]` computed from the format table's per-plane size rule
for the requested dimensions and the allocator-chosen stride. -/
theorem inferred_layout_consecutive_packing (env : Env)
    (dev : GraphicBufferAllocator) (f : Int) (w ht u : Nat)
    (planes : List Plane)
    (hres : Private.allocateInferred env dev f w ht u = some planes) :
    ∃ info, env.formatTable (env.toPixelFormat f) = some info ∧
      planes.length = info.numPlanes ∧
      (∀ i, i < planes.length →
        (planes.getD i planeZero).length =
          info.planeSize ht i (dev.alloc (mkReq f w ht u)).stride) ∧
      (0 < planes.length → (planes.getD 0 planeZero).offset = 0) ∧
      (∀ i, 0 < i → i < planes.length →
        (planes.getD i planeZero).offset =
          (planes.getD (i - 1) planeZero).offset +
            (planes.getD (i - 1) planeZero).length) := by
  unfold Private.allocateInferred at hres
  simp only [mkReq] at hres ⊢
  rcases hresp : dev.alloc
      { width := w, height := ht, format := f
        layerCount := 1, usage := u, tag := "libcameraHAL" } with ⟨status, handle, stride⟩
  rw [hresp] at hres
  by_cases hs : status = 0
  · subst hs
    cases handle with
    | none => simp at hres
    | some hd =>
        simp only [ne_eq, not_true_eq_false, if_false, reduceIte] at hres
        unfold inferredLayoutPlanes at hres
        cases htab : env.formatTable (env.toPixelFormat f) with
        | none => rw [htab] at hres; simp at hres
        | some info =>
            rw [htab] at hres
            rw [Option.some_inj] at hres
            subst hres
            refine ⟨info, rfl, ?_, ?_, ?_, ?_⟩
            · rw [packPlanes_length]; simp
            · intro i hi
              have hi' : i < ((List.range info.numPlanes).map
                  fun j => info.planeSize ht j stride).length := by
                simpa [packPlanes_length] using hi
              rw [packPlanes_getD_length _ _ _ _ hi']
              rw [List.getD_eq_getElem _ _ hi']
              simp
            · intro hpos
              have hpos' : 0 < ((List.range info.numPlanes).map
                  fun j => info.planeSize ht j stride).length := by
                simpa [packPlanes_length] using hpos
              exact packPlanes_getD_zero_offset _ _ _ hpos'
            · intro i hipos hi
              obtain ⟨j, rfl⟩ : ∃ j, i = j + 1 :=
                ⟨i - 1, (Nat.succ_pred_eq_of_pos hipos).symm⟩
              have hj : j + 1 < ((List.range info.numPlanes).map
                  fun k => info.planeSize ht k stride).length := by
                simpa [packPlanes_length] using hi
              simpa using packPlanes_offset_succ _ _ _ j hj
  · simp [hs] at hres

/-- Witness for C7: the spec's scenario — a 2-plane format at 640x480
with plane sizes 460800 and 230400 packs as offsets 0 and 460800. -/
theorem inferred_layout_consecutive_packing_witness :
    ∃ info, exEnv.formatTable (exEnv.toPixelFormat 17) = some info ∧
      ([{ fd := 7, offset := 0, length := 460800 },
        { fd := 7, offset := 460800, length := 230400 }] : List Plane).length =
          info.numPlanes ∧
      (∀ i, i < ([{ fd := 7, offset := 0, length := 460800 },
            { fd := 7, offset := 460800, length := 230400 }] : List Plane).length →
        (([{ fd := 7, offset := 0, length := 460800 },
            { fd := 7, offset := 460800, length := 230400 }] : List Plane).getD i
              planeZero).length =
          info.planeSize 480 i (exDev.alloc (mkReq 17 640 480 3)).stride) ∧
      (0 < ([{ fd := 7, offset := 0, length := 460800 },
          { fd := 7, offset := 460800, length := 230400 }] : List Plane).length →
        (([{ fd := 7, offset := 0, length := 460800 },
            { fd := 7, offset := 460800, length := 230400 }] : List Plane).getD 0
              planeZero).offset = 0) ∧
      (∀ i, 0 < i →
        i < ([{ fd := 7, offset := 0, length := 460800 },
            { fd := 7, offset := 460800, length := 230400 }] : List Plane).length →
        (([{ fd := 7, offset := 0, length := 460800 },
            { fd := 7, offset := 460800, length := 230400 }] : List Plane).getD i
              planeZero).offset =
          (([{ fd := 7, offset := 0, length := 460800 },
              { fd := 7, offset := 460800, length := 230400 }] : List Plane).getD (i - 1)
                planeZero).offset +
            (([{ fd := 7, offset := 0, length := 460800 },
                { fd := 7, offset := 460800, length := 230400 }] : List Plane).getD (i - 1)
                  planeZero).length) :=
  inferred_layout_consecutive_packing exEnv exDev 17 640 480 3
    [{ fd := 7, offset := 0, length := 460800 },
     { fd := 7, offset := 460800, length := 230400 }] rfl

/-- C8 (Inferred-Layout strategy, modelled from the spec): if the format
table has no entry for the resolved semantic format, the inferred-layout
allocate fails fast and produces no resource. -/
theorem inferred_unsupported_format_fails (env : Env)
    (dev : GraphicBufferAllocator) (f : Int) (w ht u : Nat)
    (htab : env.formatTable (env.toPixelFormat f) = none) :
    Private.allocateInferred env dev f w ht u = none := by
  simp only [Private.allocateInferred]
  split
  · rfl
  · split
    · rfl
    · simp [inferredLayoutPlanes, htab]

/-- Witness for C8 on an environment whose format table is empty. -/
theorem inferred_unsupported_format_fails_witness :
    Private.allocateInferred exEnvNoTable exDev 17 640 480 3 = none :=
  inferred_unsupported_format_fails exEnvNoTable exDev 17 640 480 3 rfl

/-- C9: every `allocate` run issues exactly one platform allocate call,
whose request carries a layer count fixed at 1 and the tag string
`"libcameraHAL"`, besides the caller's width, height, format and usage;
the platform call yields back the handle and the allocator-chosen
stride consumed by the rest of the run. -/
theorem allocate_fixed_layer_count_and_tag (env : Env)
    (dev : GraphicBufferAllocator) (f : Int) (w ht u : Nat) :
    (Private.allocate env dev f w ht u).trace = [Event.allocCall (mkReq f w ht u)] ∧
    (mkReq f w ht u).layerCount = 1 ∧
    (mkReq f w ht u).tag = "libcameraHAL" ∧
    (mkReq f w ht u).width = w ∧
    (mkReq f w ht u).height = ht ∧
    (mkReq f w ht u).format = f ∧
    (mkReq f w ht u).usage = u := by
  refine ⟨?_, rfl, rfl, rfl, rfl, rfl, rfl⟩
  unfold Private.allocate
  simp only [mkReq]
  rcases hresp : dev.alloc
      { width := w, height := ht, format := f
        layerCount := 1, usage := u, tag := "libcameraHAL" } with ⟨status, handle, stride⟩
  by_cases hs : status = 0
  · subst hs
    cases handle with
    | none => simp
    | some hd => simp
  · simp [hs]

/-- C10: the returned plane geometry depends only on the vendor handle —
two successful runs receiving the same vendor handle, under arbitrarily
different strides and format tables, return identical plane sequences. -/
theorem plane_geometry_from_handle_only (e1 e2 : Env)
    (d1 d2 : GraphicBufferAllocator) (f : Int) (w ht u : Nat)
    (hd : CrosGrallocHandle)
    (h1s : (d1.alloc (mkReq f w ht u)).status = 0)
    (h1h : (d1.alloc (mkReq f w ht u)).handle = some hd)
    (h2s : (d2.alloc (mkReq f w ht u)).status = 0)
    (h2h : (d2.alloc (mkReq f w ht u)).handle = some hd) :
    ∃ fb1 fb2,
      (Private.allocate e1 d1 f w ht u).result = some fb1 ∧
      (Private.allocate e2 d2 f w ht u).result = some fb2 ∧
      fb1.data.planes = fb2.data.planes :=
  ⟨_, _, allocate_result_of_success e1 d1 f w ht u hd h1s h1h,
    allocate_result_of_success e2 d2 f w ht u hd h2s h2h, rfl⟩

/-- Witness for C10: same vendor handle under stride 640 with a 2-plane
format table versus stride 1280 with an empty format table — identical
plane sequences. -/
theorem plane_geometry_from_handle_only_witness :
    ∃ fb1 fb2,
      (Private.allocate exEnv exDev 17 640 480 3).result = some fb1 ∧
      (Private.allocate exEnvNoTable exDevStride2 17 640 480 3).result = some fb2 ∧
      fb1.data.planes = fb2.data.planes :=
  plane_geometry_from_handle_only exEnv exEnvNoTable exDev exDevStride2
    17 640 480 3 exHandle rfl rfl rfl rfl

end GenericFBA
